import Mathlib

/-!
Verification of the flood-detector forecasting core
(`backend/flood_detector/predict_river_level.py` and
`backend/flood_detector/predict_flood.py`).

Conventions of the shallow embedding:
* scalar values (rainfall, river levels, probabilities) are rationals;
* dates are natural numbers (ordinal day index);
* a CSV file on disk is an `Option (List (Date × ℚ))` (`none` = file absent,
  `some rows` = the parsed, already column-normalised rows);
* raising a Python exception is `Except.error`; the two scripts write their
  output file only at the very end of `main`, so an `Except.error` result
  corresponds to a run that aborted with no output file written;
* the historical table `cleaned_data.csv` is a `Hist` record whose optional
  column fields model pandas column presence; `river_level` entries are
  `Option ℚ` because the code checks `pd.isna` there; the rain columns are
  modelled NaN-free (the code applies `fillna`/`dropna` where relevant,
  which is the identity on NaN-free data).
-/

namespace FloodDetector

abbrev Date := Nat

/-- Heuristic baseline river level, 349.5 in the source. -/
def BASELINE : ℚ := 699 / 2

/-- Forecast horizon, `HORIZON = 5` in `predict_river_level.py`. -/
def HORIZON : Nat := 5

/-- Embeds `classify_prob` of `predict_flood.py` (lines 33-41):
an if/elif chain over the thresholds 0.10, 0.30, 0.60. -/
def classify_prob (p : ℚ) : String :=
  if p < 1/10 then "No"
  else if p < 3/10 then "Low"
  else if p < 6/10 then "Moderate"
  else "High"

/-- Embeds the lag-buffer update `lags = [today] + lags[:-1]` used in both
forecasting loops (`predict_river_level.py` line 137, `predict_flood.py`
lines 135-136): prepend the new value, drop the oldest. -/
def pushLag (buf : List ℚ) (v : ℚ) : List ℚ :=
  v :: buf.dropLast

/-- Embeds `heuristic_probability` of `predict_flood.py` (lines 91-97).
`np.clip(p, 0.0, 1.0)` is `min (max p 0) 1`.  The Python default argument
`baseline=349.5` is passed explicitly at every call site here. -/
def heuristic_probability (local_rain upstream_rain pred_river_level baseline : ℚ) : ℚ :=
  let p := 8/100 * local_rain + 6/100 * upstream_rain
    + 3/1000 * max 0 (pred_river_level - baseline)
  min (max p 0) 1

/-- Embeds the heuristic branch of the per-day loop of
`predict_river_level.py` (lines 157-162): `base = river_prev if
river_prev != 0 else 349.5`, then the prediction with smoothing. -/
def riverStep (riverPrev roll3 upstreamToday : ℚ) : ℚ :=
  let base := if riverPrev ≠ 0 then riverPrev else BASELINE
  let pred := base + 12/100 * roll3 + 2/100 * upstreamToday
  6/10 * pred + 4/10 * riverPrev

/-- Embeds the per-day loop of `predict_river_level.py` `main` (lines
131-166) in heuristic mode (`use_model = False`): push today into the
upstream lag buffer, take the 3-day rolling sum, predict, and feed the
prediction forward as `river_prev`.  The 5- and 7-day rolling sums computed
by the source feed only the trained-model branch and are omitted here. -/
def riverLoop (upLags : List ℚ) (riverPrev : ℚ) : List (Date × ℚ) → List (Date × ℚ)
  | [] => []
  | (d, u) :: rest =>
    let upLags2 := pushLag upLags u
    let roll3 := (upLags2.take 3).sum
    let pred := riverStep riverPrev roll3 u
    (d, pred) :: riverLoop upLags2 pred rest

/-- Rows of a parsed two-column forecast CSV: (date, value). -/
abbrev Rows := List (Date × ℚ)

instance : DecidableRel (fun a b : Date × ℚ => a.1 ≤ b.1) :=
  fun a b => Nat.decLe a.1 b.1

/-- Embeds `df.sort_values("date")` on a two-column frame.  Pandas uses an
unstable quicksort by default; the claims never depend on the relative
order of duplicate dates, so a stable insertion sort models it. -/
def sortByDate (rows : Rows) : Rows :=
  List.insertionSort (fun a b => a.1 ≤ b.1) rows

/-- Embeds the historical table `cleaned_data.csv`.  An `Option` column
field models pandas column presence (`"col" in hist.columns`); rows are
ascending by date.  `river_level` entries are optional because the source
checks `pd.isna` on them; the rain columns are modelled NaN-free. -/
structure Hist where
  dates : List Date
  upstream_rain : Option (List ℚ)
  local_rain : Option (List ℚ)
  gurd_rain : Option (List ℚ)
  river_level : Option (List (Option ℚ))

/-- Embeds `load_local_forecast` of `predict_flood.py` (lines 43-59): a
missing `forecast_rainfall.csv` raises `FileNotFoundError`; otherwise the
rows are returned sorted by date.  The column-renaming lines normalise the
header only and are absorbed into the parsed `Rows` representation. -/
def load_local_forecast (localFile : Option Rows) : Except String Rows :=
  match localFile with
  | none => .error "forecast_rainfall.csv missing. Run forecast_rainfall.py first."
  | some df => .ok (sortByDate df)

/-- Embeds `load_upstream_forecast` of `predict_flood.py` (lines 61-74):
if `upstream_forecast_gfs.csv` exists its rows are used sorted by date;
otherwise an all-zero series over the local-forecast dates is built (and a
missing local forecast then raises, since `load_local_forecast` is
called). -/
def flood_load_upstream (upFile localFile : Option Rows) : Except String Rows :=
  match upFile with
  | some df => .ok (sortByDate df)
  | none =>
    match load_local_forecast localFile with
    | .error e => .error e
    | .ok localRows => .ok (localRows.map (fun r => (r.1, (0 : ℚ))))

/-- Embeds `load_river_preds` of `predict_flood.py` (lines 76-80). -/
def load_river_preds (riverFile : Option Rows) : Except String Rows :=
  match riverFile with
  | none => .error "predicted_river_level.csv missing. Run predict_river_level.py first."
  | some df => .ok (sortByDate df)

/-- Embeds `np.linalg.lstsq` on the design matrix `[x 1]` (lines 70-73 of
`predict_river_level.py`): ordinary least squares for `y = a*x + b` in
closed form; in the rank-deficient case (all x equal) the minimum-norm
solution.  Call sites guarantee at least 10 rows, so `n` is nonzero. -/
def lstsqFit (pairs : List (ℚ × ℚ)) : ℚ × ℚ :=
  let n : ℚ := (pairs.length : ℚ)
  let sx := (pairs.map Prod.fst).sum
  let sy := (pairs.map Prod.snd).sum
  let sxx := (pairs.map (fun p => p.1 * p.1)).sum
  let sxy := (pairs.map (fun p => p.1 * p.2)).sum
  let den := n * sxx - sx * sx
  if den = 0 then
    let c := sx / n
    let m := sy / n
    (c * m / (c * c + 1), m / (c * c + 1))
  else
    let a := (n * sxy - sx * sy) / den
    (a, (sy - a * sx) / n)

/-- Embeds the proxy-coefficient selection of
`predict_river_level.load_upstream_forecast` (lines 65-79): a least-squares
fit of upstream on local rain when both history columns exist with at
least 10 overlap rows, else `(1, 0)`.  With NaN-free rain columns the
`dropna` of the source is the identity, so the overlap is the zip of the
two columns; sorting the history by date permutes rows jointly and does
not affect the fit. -/
def proxyCoeffs (cleaned : Option Hist) : ℚ × ℚ :=
  match cleaned with
  | none => (1, 0)
  | some h =>
    match h.gurd_rain, h.upstream_rain with
    | some g, some u =>
      let overlap := g.zip u
      if 10 ≤ overlap.length then lstsqFit overlap else (1, 0)
    | _, _ => (1, 0)

/-- Embeds `load_upstream_forecast` of `predict_river_level.py` (lines
39-86): prefer the upstream file (sorted); else build a proxy from the
first `HORIZON` local-forecast rows, scaled by `proxyCoeffs` and clipped
below at 0 (`fillna(0.0)` on NaN-free rows is the identity); else an
all-zero series over `HORIZON` days starting today. -/
def river_load_upstream (upFile localFile : Option Rows) (cleaned : Option Hist)
    (today : Date) : Rows :=
  match upFile with
  | some df => sortByDate df
  | none =>
    match localFile with
    | some dfLocal =>
      let ab := proxyCoeffs cleaned
      (dfLocal.take HORIZON).map (fun r => (r.1, max 0 (ab.1 * r.2 + ab.2)))
    | none =>
      (List.range HORIZON).map (fun i => (today + i, (0 : ℚ)))

/-- Embeds the upstream-lag seeding of `predict_flood.py` (line 114):
entry `k` (0-based, newest first) is `hist.iloc[-(k+1)]["upstream_rain"]`
when the row and column exist, else 0. -/
def seedUpLags (cleaned : Option Hist) : List ℚ :=
  (List.range 7).map fun k =>
    match cleaned with
    | none => 0
    | some h =>
      if k + 1 ≤ h.dates.length then
        match h.upstream_rain with
        | some col => col.reverse.getD k 0
        | none => 0
      else 0

/-- Embeds the local-lag seeding of `predict_flood.py` (line 115): the
`gurd_rain` column if present, else `local_rain`, else 0. -/
def seedLocalLags (cleaned : Option Hist) : List ℚ :=
  (List.range 7).map fun k =>
    match cleaned with
    | none => 0
    | some h =>
      if k + 1 ≤ h.dates.length then
        match h.gurd_rain with
        | some col => col.reverse.getD k 0
        | none =>
          match h.local_rain with
          | some col => col.reverse.getD k 0
          | none => 0
      else 0

/-- Embeds the last-known-river seeding used by both scripts
(`predict_flood.py` line 116, `predict_river_level.py` lines 114-117):
the last `river_level` entry when the table, the column and a non-NaN
value exist, else 0. -/
def seedLastRiver (cleaned : Option Hist) : ℚ :=
  match cleaned with
  | none => 0
  | some h =>
    match h.river_level with
    | none => 0
    | some col =>
      match col.getLast? with
      | some (some v) => v
      | _ => 0

/-- Embeds the last-known-upstream seeding of `predict_river_level.py`
(lines 110-113): the last `upstream_rain` entry when present, else 0. -/
def riverLastUp (cleaned : Option Hist) : ℚ :=
  match cleaned with
  | none => 0
  | some h =>
    match h.upstream_rain with
    | none => 0
    | some col => (col.getLast?).getD 0

/-- Embeds `main` of `predict_river_level.py` (lines 97-166) in heuristic
mode: sort the loaded upstream forecast, truncate to the horizon, seed the
lag buffer with seven copies of the last known upstream value, seed the
previous level with the last known river level, and run the per-day
loop.  The script writes its output file only after this loop, so the
returned rows are exactly the written rows. -/
def river_main (upFile localFile : Option Rows) (cleaned : Option Hist)
    (today : Date) : Rows :=
  let upFc := (sortByDate (river_load_upstream upFile localFile cleaned today)).take HORIZON
  riverLoop (List.replicate 7 (riverLastUp cleaned)) (seedLastRiver cleaned) upFc

/-- Embeds the `river_lag_1` lookup of `predict_flood.py` (lines 142-147):
sort the stage-1 dates strictly earlier than `fdate`; if any exist, read
the prediction of the last (largest) one from the stage-1 map, else use
the last known historical river level.  The source indexes a dict built by
`dict(zip(dates, preds))`; with unique dates this is association-list
lookup. -/
def riverLag (predMap : Rows) (lastRiver : ℚ) (fdate : Date) : ℚ :=
  let prevDates :=
    List.insertionSort (· ≤ ·) ((predMap.map Prod.fst).filter (fun d => d < fdate))
  match prevDates.getLast? with
  | some d => (predMap.lookup d).getD 0
  | none => lastRiver

/-- A row of the merged frame built in `predict_flood.main` (lines
106-110): river predictions left-joined with the local and upstream
forecasts by date, missing rain values filled with 0. -/
structure MergedRow where
  date : Date
  local_rain : ℚ
  upstream_rain : ℚ
  pred_river_level : ℚ

/-- An output row of `flood_forecast.csv`.  `risk` embeds the
`risk_class` column of the source; the `flood_probability_pct` column is
the same probability formatted as a percentage string and is omitted. -/
structure OutRow where
  date : Date
  local_rain : ℚ
  upstream_rain : ℚ
  pred_river_level : ℚ
  flood_probability : ℚ
  risk : String

/-- Embeds the left joins of `predict_flood.main` (lines 106-110): the
river predictions set the horizon; rain values are looked up by date and
default to 0 (`fillna(0.0)`).  Dates are unique per the data model. -/
def mergeRows (river localRows upRows : Rows) : List MergedRow :=
  river.map (fun r =>
    { date := r.1, pred_river_level := r.2,
      local_rain := (localRows.lookup r.1).getD 0,
      upstream_rain := (upRows.lookup r.1).getD 0 })

/-- Embeds the per-day loop of `predict_flood.main` (lines 130-178) in
heuristic mode (`use_model = False`): push today's rains into both lag
buffers and emit the heuristic probability of today's values together
with its risk class.  The rolling sums, the `river_lag_1` value
(`riverLag predMap lastRiver row.date`) and the calendar features computed
by the source feed only the trained-model branch; `pred_river_level` is
always present in a merged row, so the `row.get` default `river_lag_1` is
never taken. -/
def floodLoop (predMap : Rows) (lastRiver : ℚ) (upLags localLags : List ℚ) :
    List MergedRow → List OutRow
  | [] => []
  | row :: rest =>
    let upLags2 := pushLag upLags row.upstream_rain
    let localLags2 := pushLag localLags row.local_rain
    let prob := heuristic_probability row.local_rain row.upstream_rain
      row.pred_river_level BASELINE
    { date := row.date, local_rain := row.local_rain,
      upstream_rain := row.upstream_rain,
      pred_river_level := row.pred_river_level,
      flood_probability := prob,
      risk := classify_prob prob }
      :: floodLoop predMap lastRiver upLags2 localLags2 rest

/-- Embeds `main` of `predict_flood.py` (lines 99-188) in heuristic mode:
load the three forecast tables (each raising on the conditions of its
loader), merge them on the river-prediction dates, seed the lag state from
the optional history, and run the loop.  The output file is written only
after the loop, so `Except.error` means no output row was produced. -/
def flood_main (localFile upFile riverFile : Option Rows) (cleaned : Option Hist) :
    Except String (List OutRow) :=
  match load_local_forecast localFile with
  | .error e => .error e
  | .ok dfLocal =>
    match flood_load_upstream upFile localFile with
    | .error e => .error e
    | .ok dfUp =>
      match load_river_preds riverFile with
      | .error e => .error e
      | .ok dfRiver =>
        let df := mergeRows dfRiver dfLocal dfUp
        .ok (floodLoop dfRiver (seedLastRiver cleaned) (seedUpLags cleaned)
          (seedLocalLags cleaned) df)

/-- A deserialised predictor artifact.  Its evaluation function is never
applied by the claims; only the loading logic matters. -/
def Model : Type := List ℚ → ℚ

/-- Embeds `load_model_and_feats` (identical in both scripts,
`predict_river_level.py` lines 88-95 and `predict_flood.py` lines 82-89):
both files must exist, otherwise `(None, None)` is returned; when the
model file exists but `pickle.load` fails, the exception propagates
uncaught (`Except.error`).  `some (.error ())` models a present but
unreadable artifact. -/
def load_model_and_feats (modelFile : Option (Except Unit Model))
    (featFile : Option (List String)) :
    Except Unit (Option Model × Option (List String)) :=
  match modelFile, featFile with
  | some m, some f =>
    match m with
    | .ok clf => .ok (some clf, some f)
    | .error e => .error e
  | _, _ => .ok (none, none)

/-- Embeds `use_model = clf is not None and feat_order is not None`
(`predict_flood.py` line 120, `predict_river_level.py` line 121),
propagating a load exception. -/
def stage_uses_model (modelFile : Option (Except Unit Model))
    (featFile : Option (List String)) : Except Unit Bool :=
  match load_model_and_feats modelFile featFile with
  | .ok (some _, some _) => .ok true
  | .ok _ => .ok false
  | .error e => .error e

/-- Specification-style recomputation of the heuristic river forecast:
the 3-day rolling sum is read directly from the reversed raw history of
pushed values extended by the seed, and the previous level is carried
explicitly.  Stated from the amended C3 formula
`pred = 0.6*(base + 0.12*roll_3 + 0.02*today) + 0.4*prev` with
`base = prev` whenever `prev` is nonzero and the baseline constant
otherwise; compared against `riverLoop`, which maintains a sliding
7-entry buffer instead. -/
def riverSpecAux (seed : List ℚ) (prev : ℚ) (past : List ℚ) :
    List (Date × ℚ) → List (Date × ℚ)
  | [] => []
  | (d, u) :: rest =>
    let hist := u :: past
    let roll3 := ((hist ++ seed).take 3).sum
    let base := if prev ≠ 0 then prev else BASELINE
    let pred := 6/10 * (base + 12/100 * roll3 + 2/100 * u) + 4/10 * prev
    (d, pred) :: riverSpecAux seed pred hist rest

/-- Modelled from claim C3 as stated: one step of the heuristic formula in
which the baseline constant substitutes for the base only on the very
first step of a run with no river-level history. -/
def riverStepClaimC3 (histExists isFirstStep : Bool) (prev roll3 u : ℚ) : ℚ :=
  let base := if isFirstStep && !histExists then BASELINE else prev
  6/10 * (base + 12/100 * roll3 + 2/100 * u) + 4/10 * prev

/-- A one-row history whose last observed river level is 0.0 (present and
non-NaN) and whose last upstream rain is 0: the input of the C3
counterexample. -/
def c3hist : Hist := ⟨[0], some [0], none, none, some [some 0]⟩

/-- A one-row history seeding the last river level with the baseline
349.5 and the last upstream rain with `u`: the run state of claim C9. -/
def c9hist (u : ℚ) : Hist := ⟨[0], some [u], none, none, some [some BASELINE]⟩

/-- The stage-1 levels of a C9 run: history `c9hist u`, an all-zero
upstream forecast of length 5, heuristic mode. -/
def c9out (u : ℚ) : List ℚ :=
  (river_main (some [(1, 0), (2, 0), (3, 0), (4, 0), (5, 0)]) none
    (some (c9hist u)) 0).map Prod.snd

end FloodDetector

namespace FloodDetector

/-! Theorems about the lag buffers. -/

/-- Pushing preserves the buffer length 7. -/
theorem pushLag_length (buf : List ℚ) (v : ℚ) (h : buf.length = 7) :
    (pushLag buf v).length = 7 := by
  simp [pushLag, h]

/-- Taking `n` of an append only depends on the first `n` entries of the
right list. -/
theorem take_congr_right (A B C : List ℚ) (n : Nat) (h : B.take n = C.take n) :
    (A ++ B).take n = (A ++ C).take n := by
  rw [List.take_append_eq_append_take, List.take_append_eq_append_take]
  congr 1
  have hm : n - A.length ≤ n := Nat.sub_le _ _
  calc B.take (n - A.length)
      = (B.take n).take (n - A.length) := by
        rw [List.take_take, Nat.min_eq_left hm]
    _ = (C.take n).take (n - A.length) := by rw [h]
    _ = C.take (n - A.length) := by rw [List.take_take, Nat.min_eq_left hm]

/-- Closed form of a pushed buffer: after folding `pushLag` over `vs`, a
7-entry buffer holds the first 7 entries of the reversed pushed values
followed by the seed. -/
theorem foldl_pushLag_eq (vs : List ℚ) : ∀ seed : List ℚ, seed.length = 7 →
    vs.foldl pushLag seed = (vs.reverse ++ seed).take 7 := by
  induction vs with
  | nil =>
    intro seed h
    simp only [List.foldl_nil, List.reverse_nil, List.nil_append]
    rw [← h, List.take_length]
  | cons v vs ih =>
    intro seed h
    rw [List.foldl_cons, ih (pushLag seed v) (pushLag_length _ _ h)]
    have hd : seed.dropLast = seed.take 6 := by rw [List.dropLast_eq_take, h]
    simp only [pushLag, hd, List.reverse_cons, List.append_assoc,
      List.singleton_append]
    apply take_congr_right
    rw [List.take_succ_cons, List.take_succ_cons, List.take_take]
    norm_num

/-- C6: a lag buffer seeded with exactly 7 entries keeps exactly 7 entries
after any sequence of pushes, the buffer is always the newest-first window
of the pushed values over the seed, and after exactly 7 pushes of
`v1..v7` it holds `[v7,...,v1]` with no seed values remaining. -/
theorem lagBuffer_push_invariant (seed : List ℚ) (hseed : seed.length = 7)
    (vs : List ℚ) :
    vs.foldl pushLag seed = (vs.reverse ++ seed).take 7
    ∧ (vs.foldl pushLag seed).length = 7
    ∧ (vs.length = 7 → vs.foldl pushLag seed = vs.reverse) := by
  have h := foldl_pushLag_eq vs seed hseed
  refine ⟨h, ?_, ?_⟩
  · rw [h, List.length_take, List.length_append, hseed]
    omega
  · intro h7
    have hrev : vs.reverse.length = 7 := by simp [h7]
    rw [h, ← hrev, List.take_left]

/-- Witness for C6: a buffer seeded with seven 9s, pushed with 1..7,
becomes `[7,6,5,4,3,2,1]`, via `lagBuffer_push_invariant`. -/
theorem lagBuffer_push_invariant_witness :
    (List.replicate 7 (9:ℚ)).length = 7
    ∧ ([1,2,3,4,5,6,7] : List ℚ).length = 7
    ∧ ([1,2,3,4,5,6,7] : List ℚ).foldl pushLag (List.replicate 7 9)
        = [7,6,5,4,3,2,1] := by
  refine ⟨rfl, rfl, ?_⟩
  rw [(lagBuffer_push_invariant (List.replicate 7 9) rfl [1,2,3,4,5,6,7]).2.2 rfl]
  rfl

/-! Theorems about the risk classifier. -/

/-- C1: the risk classifier is a pure total function with lower-inclusive
boundaries: `p < 0.10 → No`, `0.10 ≤ p < 0.30 → Low`,
`0.30 ≤ p < 0.60 → Moderate`, `p ≥ 0.60 → High`; the boundary points
0.10, 0.30, 0.60 map to Low, Moderate, High respectively; and for every
`p` the result is exactly one of the four classes. -/
theorem classify_prob_thresholds (p : ℚ) :
    (p < 1/10 → classify_prob p = "No")
    ∧ (1/10 ≤ p ∧ p < 3/10 → classify_prob p = "Low")
    ∧ (3/10 ≤ p ∧ p < 6/10 → classify_prob p = "Moderate")
    ∧ (6/10 ≤ p → classify_prob p = "High")
    ∧ classify_prob (1/10) = "Low"
    ∧ classify_prob (3/10) = "Moderate"
    ∧ classify_prob (6/10) = "High"
    ∧ (classify_prob p = "No" ∨ classify_prob p = "Low"
        ∨ classify_prob p = "Moderate" ∨ classify_prob p = "High") := by
  unfold classify_prob
  refine ⟨?_, ?_, ?_, ?_, by norm_num, by norm_num, by norm_num, ?_⟩
  · intro h; rw [if_pos h]
  · rintro ⟨h1, h2⟩
    rw [if_neg (by linarith), if_pos h2]
  · rintro ⟨h1, h2⟩
    rw [if_neg (by linarith), if_neg (by linarith), if_pos h2]
  · intro h
    rw [if_neg (by linarith), if_neg (by linarith), if_neg (by linarith)]
  · split_ifs <;> tauto

/-- Witness for C1: evaluates the classifier at the boundary point 0.10
through `classify_prob_thresholds`. -/
theorem classify_prob_thresholds_witness :
    (1 : ℚ)/10 ≤ 1/10 ∧ (1 : ℚ)/10 < 3/10 ∧ classify_prob (1/10) = "Low" :=
  ⟨le_refl _, by norm_num,
    (classify_prob_thresholds (1/10)).2.1 ⟨le_refl _, by norm_num⟩⟩

/-- C10: the classifier is total on all rational inputs, not only on
`[0, 1]`: every negative probability is classified `No`, every probability
above 1 is classified `High`, and any input lands in one of the four
classes. -/
theorem classify_prob_total (p : ℚ) :
    (p < 0 → classify_prob p = "No")
    ∧ (1 < p → classify_prob p = "High")
    ∧ (classify_prob p = "No" ∨ classify_prob p = "Low"
        ∨ classify_prob p = "Moderate" ∨ classify_prob p = "High") := by
  unfold classify_prob
  refine ⟨?_, ?_, ?_⟩
  · intro h; rw [if_pos (by linarith)]
  · intro h
    rw [if_neg (by linarith), if_neg (by linarith), if_neg (by linarith)]
  · split_ifs <;> tauto

/-- Witness for C10: evaluates the classifier at -1 and at 2 through
`classify_prob_total`. -/
theorem classify_prob_total_witness :
    (-1 : ℚ) < 0 ∧ classify_prob (-1) = "No"
    ∧ (1 : ℚ) < 2 ∧ classify_prob 2 = "High" :=
  ⟨by norm_num, (classify_prob_total (-1)).1 (by norm_num),
    by norm_num, (classify_prob_total 2).2.1 (by norm_num)⟩

/-! Theorems about predictor-capability resolution. -/

/-- C7 counterexample: a present but unreadable model artifact does not
fall back to the heuristic — the load error propagates to the caller,
refuting the claim that a stage with an unreadable artifact proceeds
heuristically with no error raised. -/
theorem load_model_corrupt_raises :
    load_model_and_feats (some (Except.error ())) (some ["up_lag_1"])
      = Except.error () := rfl

/-- C7 amended: each stage independently falls back to its heuristic, with
no error raised, when the model artifact or the feature-name list file is
absent; a stage whose artifact pair is present and readable uses the
trained model.  In particular a run with the river artifact pair present
and the flood artifact pair absent uses the trained model for river level
and the heuristic for flood probability. -/
theorem model_fallback_per_stage (m : Model) (f : List String)
    (ff : Option (List String)) (mf : Option (Except Unit Model)) :
    stage_uses_model (some (Except.ok m)) (some f) = Except.ok true
    ∧ stage_uses_model none ff = Except.ok false
    ∧ stage_uses_model mf none = Except.ok false := by
  refine ⟨rfl, ?_, ?_⟩
  · cases ff <;> rfl
  · cases mf with
    | none => rfl
    | some e => cases e <;> rfl

/-! Theorems about the upstream-forecast fallback. -/

/-- C2 counterexample: with the upstream forecast absent, a one-row local
forecast with rainfall 5 and no history, the river-level stage substitutes
the local-rain proxy `[(0, 5)]`, whose upstream value is not 0, refuting
the claim that every substituted row has `upstream_rain == 0.0`. -/
theorem river_upstream_fallback_nonzero :
    river_load_upstream none (some [(0, 5)]) none 0 = [(0, 5)]
    ∧ (5 : ℚ) ≠ 0 := by
  refine ⟨?_, by norm_num⟩
  show [(0, max 0 (1 * 5 + 0))] = [(0, (5 : ℚ))]
  norm_num

/-- C2 amended: with the upstream table absent and the local forecast
present, neither stage raises; the flood-probability stage substitutes an
all-zero series over exactly the local-forecast dates (same length); the
river-level stage instead substitutes a nonnegative local-rain proxy over
the first `HORIZON` local-forecast dates. -/
theorem upstream_fallback_behavior (L : Rows) (cleaned : Option Hist)
    (today : Date) :
    (∃ M, flood_load_upstream none (some L) = Except.ok M
      ∧ List.Perm (M.map Prod.fst) (L.map Prod.fst)
      ∧ M.length = L.length
      ∧ ∀ r ∈ M, r.2 = 0)
    ∧ ((river_load_upstream none (some L) cleaned today).map Prod.fst
        = (L.take HORIZON).map Prod.fst)
    ∧ (∀ r ∈ river_load_upstream none (some L) cleaned today, 0 ≤ r.2) := by
  refine ⟨⟨(sortByDate L).map (fun r => (r.1, (0 : ℚ))), by rfl, ?_, ?_, ?_⟩, ?_, ?_⟩
  · have hperm : List.Perm (sortByDate L) L := List.perm_insertionSort _ L
    simpa [List.map_map, Function.comp] using hperm.map Prod.fst
  · rw [List.length_map, sortByDate, (List.perm_insertionSort _ L).length_eq]
  · intro r hr
    rcases List.mem_map.mp hr with ⟨x, _, rfl⟩
    rfl
  · simp only [river_load_upstream, List.map_map]
    rfl
  · intro r hr
    rcases List.mem_map.mp hr with ⟨x, _, rfl⟩
    exact le_max_left _ _

/-- Witness for C2 amended: with local forecast `[(3, 2)]` and no history,
the river-stage substitute at date 3 is nonnegative, via
`upstream_fallback_behavior`. -/
theorem upstream_fallback_behavior_witness :
    (3, (2 : ℚ)) ∈ river_load_upstream none (some [(3, 2)]) none 0
    ∧ 0 ≤ ((3, (2 : ℚ)) : Date × ℚ).2 := by
  have hm : (3, (2 : ℚ)) ∈ river_load_upstream none (some [(3, 2)]) none 0 := by
    show (3, (2 : ℚ)) ∈ [(3, max 0 (1 * 2 + 0))]
    norm_num
  exact ⟨hm, (upstream_fallback_behavior [(3, 2)] none 0).2.2 (3, 2) hm⟩

/-! Theorems about fatal and non-fatal missing inputs. -/

/-- Length of the river-level output equals the length of the forecast it
iterates over. -/
theorem riverLoop_length (rows : List (Date × ℚ)) :
    ∀ lags prev, (riverLoop lags prev rows).length = rows.length := by
  induction rows with
  | nil => intro lags prev; rfl
  | cons r rest ih =>
    intro lags prev
    cases r with
    | mk d u => simp only [riverLoop, List.length_cons, ih]

/-- C8 counterexample: a run with the historical table absent but all
forecast tables present completes both stages and emits output rows (one
flood row here, five river rows with no inputs at all), refuting the claim
that a missing historical table aborts the run before any output. -/
theorem missing_history_not_fatal :
    Except.map List.length
      (flood_main (some [(0, 1)]) (some [(0, 2)]) (some [(0, 350)]) none)
      = Except.ok 1
    ∧ (river_main none none none 0).length = 5 := by
  constructor
  · rfl
  · rw [river_main, riverLoop_length]
    rfl

/-- C8 amended: only the local-forecast table is fatal, and only to the
flood-probability stage: `flood_main` errors (before any output) whenever
the local forecast is absent, and succeeds whenever the local forecast and
the river predictions are present, whatever the historical table; the
river-level stage never aborts and still emits a full horizon with no
input tables at all. -/
theorem local_forecast_required_only (upFile riverFile U : Option Rows)
    (cleaned cl2 cl3 : Option Hist) (L R : Rows) (today : Date) :
    (flood_main none upFile riverFile cleaned).isOk = false
    ∧ (flood_main (some L) U (some R) cl2).isOk = true
    ∧ (river_main none none cl3 today).length = HORIZON := by
  refine ⟨rfl, ?_, ?_⟩
  · cases U <;> rfl
  · rw [river_main, riverLoop_length, List.length_take, sortByDate,
      (List.perm_insertionSort _ _).length_eq]
    simp [river_load_upstream, HORIZON]

/-! Theorems about the flood-probability heuristic. -/

/-- C4: in heuristic mode every emitted flood probability is the clipped
affine formula of that day's merged local rain, upstream rain and stage-1
river level, and in particular lies in `[0, 1]`. -/
theorem flood_heuristic_probability_clip (predMap : Rows) (lastRiver : ℚ)
    (upLags localLags : List ℚ) (rows : List MergedRow) (i : Nat)
    (h : i < rows.length) :
    ∃ o, (floodLoop predMap lastRiver upLags localLags rows).get? i = some o
      ∧ o.flood_probability
          = min (max (8/100 * (rows.getD i ⟨0, 0, 0, 0⟩).local_rain
              + 6/100 * (rows.getD i ⟨0, 0, 0, 0⟩).upstream_rain
              + 3/1000 * max 0 ((rows.getD i ⟨0, 0, 0, 0⟩).pred_river_level - 699/2))
              0) 1
      ∧ 0 ≤ o.flood_probability ∧ o.flood_probability ≤ 1 := by
  induction rows generalizing upLags localLags i with
  | nil => exact absurd h (by simp)
  | cons row rest ih =>
    cases i with
    | zero =>
      refine ⟨_, rfl, rfl, ?_, ?_⟩
      · exact le_min (le_max_right _ _) zero_le_one
      · exact min_le_right _ _
    | succ n =>
      have h2 : n < rest.length := by simpa using h
      obtain ⟨o, ho, hp, hb1, hb2⟩ :=
        ih (pushLag upLags row.upstream_rain) (pushLag localLags row.local_rain) n h2
      exact ⟨o, ho, by simpa using hp, hb1, hb2⟩

/-- Witness for C4: a single merged row with local rain 10, upstream rain
20 and level 400 is clipped to probability exactly 1, via
`flood_heuristic_probability_clip`. -/
theorem flood_heuristic_probability_clip_witness :
    0 < ([(⟨0, 10, 20, 400⟩ : MergedRow)]).length
    ∧ (∃ o, (floodLoop [] 0 (List.replicate 7 0) (List.replicate 7 0)
        [(⟨0, 10, 20, 400⟩ : MergedRow)]).get? 0 = some o
      ∧ 0 ≤ o.flood_probability ∧ o.flood_probability ≤ 1)
    ∧ (floodLoop [] 0 (List.replicate 7 0) (List.replicate 7 0)
        [(⟨0, 10, 20, 400⟩ : MergedRow)]).map OutRow.flood_probability = [1] := by
  refine ⟨by norm_num, ?_, ?_⟩
  case refine_2 =>
    simp only [floodLoop, List.map, heuristic_probability, BASELINE]
    rw [max_eq_right (by norm_num : (0 : ℚ) ≤ 400 - 699/2)]
    rw [max_eq_left (by norm_num : (0 : ℚ) ≤ 8/100 * 10 + 6/100 * 20 + 3/1000 * (400 - 699/2))]
    rw [min_eq_right (by norm_num : (1 : ℚ) ≤ 8/100 * 10 + 6/100 * 20 + 3/1000 * (400 - 699/2))]
  obtain ⟨o, h1, _, h3, h4⟩ :=
    flood_heuristic_probability_clip [] 0 (List.replicate 7 0) (List.replicate 7 0)
      [(⟨0, 10, 20, 400⟩ : MergedRow)] 0 (by norm_num)
  exact ⟨o, h1, h3, h4⟩

/-! Theorems about the stage-1 to stage-2 date join. -/

/-- Every element of a list sorted ascending is at most its last
element. -/
theorem le_getLast_of_sorted :
    ∀ (l : List Nat), l.Sorted (· ≤ ·) → ∀ (hne : l ≠ []) (x : Nat), x ∈ l →
      x ≤ l.getLast hne := by
  intro l
  induction l with
  | nil => intro _ hne; exact absurd rfl hne
  | cons a t ih =>
    intro hl hne x hx
    rcases List.sorted_cons.mp hl with ⟨ha, ht⟩
    cases t with
    | nil =>
      rcases List.mem_singleton.mp hx with rfl
      exact le_refl _
    | cons b t2 =>
      rw [List.getLast_cons (by simp)]
      rcases List.mem_cons.mp hx with rfl | hx2
      · exact ha _ (List.getLast_mem _)
      · exact ih ht (by simp) x hx2

/-- Association-list lookup finds the stored value when keys are
distinct. -/
theorem lookup_eq_some_of_mem :
    ∀ (l : Rows) (d : Date) (v : ℚ), (l.map Prod.fst).Nodup → (d, v) ∈ l →
      l.lookup d = some v := by
  intro l
  induction l with
  | nil => intro d v _ hm; exact absurd hm (by simp)
  | cons p t ih =>
    intro d v hnd hm
    rcases List.mem_cons.mp hm with rfl | hm2
    · simp [List.lookup]
    · have hne : d ≠ p.1 := by
        intro hdp
        have h1 : p.1 ∉ t.map Prod.fst := (List.nodup_cons.mp hnd).1
        exact h1 (hdp ▸ List.mem_map_of_mem Prod.fst hm2)
      have : (d == p.1) = false := by
        simpa using hne
      cases p with
      | mk k b =>
        simp only [List.lookup, this]
        exact ih d v (List.nodup_cons.mp hnd).2 hm2

/-- C5: the `river_lag_1` feature equals the stage-1 prediction of the
maximum date strictly earlier than the target among the stage-1 output
dates, and equals the last known historical river level when no strictly
earlier predicted date exists. -/
theorem river_lag_nearest_prior (predMap : Rows) (lastRiver : ℚ) (fdate : Date)
    (hnd : (predMap.map Prod.fst).Nodup) :
    ((∀ d ∈ predMap.map Prod.fst, ¬ d < fdate) →
      riverLag predMap lastRiver fdate = lastRiver)
    ∧ (∀ d v, (d, v) ∈ predMap → d < fdate →
        (∀ e ∈ predMap.map Prod.fst, e < fdate → e ≤ d) →
        riverLag predMap lastRiver fdate = v) := by
  constructor
  · intro hall
    have hf : (predMap.map Prod.fst).filter (fun d => d < fdate) = [] := by
      rw [List.filter_eq_nil_iff]
      intro a ha
      simpa using hall a ha
    simp [riverLag, hf]
  · intro d v hmem hlt hmax
    have hdk : d ∈ predMap.map Prod.fst := List.mem_map_of_mem Prod.fst hmem
    have hdF : d ∈ (predMap.map Prod.fst).filter (fun e => e < fdate) := by
      rw [List.mem_filter]
      exact ⟨hdk, by simpa using hlt⟩
    have hdS :
        d ∈ List.insertionSort (· ≤ ·)
          ((predMap.map Prod.fst).filter (fun e => e < fdate)) := by
      rw [List.mem_insertionSort]
      exact hdF
    have hne :
        List.insertionSort (· ≤ ·)
          ((predMap.map Prod.fst).filter (fun e => e < fdate)) ≠ [] :=
      List.ne_nil_of_mem hdS
    set S := List.insertionSort (· ≤ ·)
      ((predMap.map Prod.fst).filter (fun e => e < fdate)) with hS
    have hlast : S.getLast? = some (S.getLast hne) :=
      List.getLast?_eq_getLast S hne
    have hmem2 : S.getLast hne ∈ S := List.getLast_mem hne
    have hmemF : S.getLast hne ∈
        (predMap.map Prod.fst).filter (fun e => e < fdate) :=
      (List.mem_insertionSort _).mp hmem2
    have hlt2 : S.getLast hne < fdate := by
      have := (List.mem_filter.mp hmemF).2
      simpa using this
    have hinK : S.getLast hne ∈ predMap.map Prod.fst :=
      (List.mem_filter.mp hmemF).1
    have hle1 : S.getLast hne ≤ d := hmax _ hinK hlt2
    have hle2 : d ≤ S.getLast hne :=
      le_getLast_of_sorted S (List.sorted_insertionSort _ _) hne d hdS
    have heq : S.getLast hne = d := le_antisymm hle1 hle2
    have : riverLag predMap lastRiver fdate = (predMap.lookup d).getD 0 := by
      rw [riverLag, ← hS, hlast, heq]
    rw [this, lookup_eq_some_of_mem predMap d v hnd hmem]
    rfl

/-- Witness for C5: with stage-1 output `[(1, 100), (3, 300)]` and target
date 4, the nearest strictly earlier date is 3, so `river_lag_1` is 300,
via `river_lag_nearest_prior`. -/
theorem river_lag_nearest_prior_witness :
    (([(1, (100 : ℚ)), (3, 300)] : Rows).map Prod.fst).Nodup
    ∧ riverLag [(1, 100), (3, 300)] 7 4 = 300 :=
  ⟨by decide,
    (river_lag_nearest_prior [(1, 100), (3, 300)] 7 4 (by decide)).2 3 300
      (by decide) (by decide) (by decide)⟩

/-! Theorems about the heuristic river-level recurrence. -/

/-- A heuristic step from level 0 with no rain lands on 209.7: the zero
level makes the source use the baseline as base. -/
theorem riverStep_zero : riverStep (0 : ℚ) 0 0 = 2097/10 := by
  simp only [riverStep]
  norm_num [BASELINE]

/-- C3 counterexample: a run whose history exists and records last river
level 0.0 uses the baseline 349.5 as base on the first step (the emitted
level is 209.7), while the claim formula — baseline only when no history
exists — yields 0 there; so the claim as stated is false. -/
theorem river_heuristic_baseline_divergence :
    seedLastRiver (some c3hist) = 0
    ∧ river_main (some [(1, 0)]) none (some c3hist) 0 = [(1, 2097/10)]
    ∧ riverStepClaimC3 true true 0 0 0 = 0
    ∧ (2097/10 : ℚ) ≠ 0 := by
  refine ⟨rfl, ?_, ?_, by norm_num⟩
  · have e1 : river_main (some [(1, 0)]) none (some c3hist) 0
        = riverLoop (List.replicate 7 0) 0 [(1, 0)] := rfl
    rw [e1]
    show [(1, riverStep 0 ((pushLag (List.replicate 7 0) 0).take 3).sum 0)]
        = [(1, (2097/10 : ℚ))]
    have e3 : ((pushLag (List.replicate 7 (0 : ℚ)) 0).take 3).sum = 0 := by
      show ([0, 0, 0] : List ℚ).sum = 0
      simp
    rw [e3, riverStep_zero]
  · simp only [riverStepClaimC3]
    norm_num

/-- Equivalence of the buffered loop with the specification-style
recursion, generalized over the accumulated past. -/
theorem riverLoop_eq_specAux :
    ∀ (rows : List (Date × ℚ)) (seed : List ℚ), seed.length = 7 →
      ∀ (prev : ℚ) (past lags : List ℚ), lags = (past ++ seed).take 7 →
      riverLoop lags prev rows = riverSpecAux seed prev past rows := by
  intro rows
  induction rows with
  | nil => intro seed hs prev past lags hl; rfl
  | cons r rest ih =>
    intro seed hs prev past lags hl
    cases r with
    | mk d u =>
      have hlen : 7 ≤ (past ++ seed).length := by
        rw [List.length_append, hs]; omega
      have hlags_len : lags.length = 7 := by
        rw [hl, List.length_take]; omega
      have hpush : pushLag lags u = ((u :: past) ++ seed).take 7 := by
        rw [pushLag, List.dropLast_eq_take, hlags_len, hl, List.take_take]
        norm_num
      have hroll : ((pushLag lags u).take 3).sum
          = (((u :: past) ++ seed).take 3).sum := by
        rw [hpush, List.take_take]
        norm_num
      have hpred : riverStep prev ((pushLag lags u).take 3).sum u
          = 6/10 * ((if prev ≠ 0 then prev else BASELINE)
              + 12/100 * (((u :: past) ++ seed).take 3).sum + 2/100 * u)
            + 4/10 * prev := by
        simp only [riverStep]
        rw [hroll]
      simp only [riverLoop, riverSpecAux]
      rw [hpred]
      exact congrArg _ (ih seed hs _ (u :: past) (pushLag lags u) hpush)

/-- C3 amended: in heuristic mode each emitted level is
`0.6*(base + 0.12*roll_3 + 0.02*today_rain) + 0.4*lastPredictedLevel`
with `roll_3` the 3-entry rolling sum after pushing today's upstream rain
and the result fed forward, but `base` is the baseline 349.5 whenever
`lastPredictedLevel` is exactly 0 — at any step, including a first step
whose history exists with last river level 0 — and equals
`lastPredictedLevel` otherwise: the buffered loop coincides with this
specification recursion for every 7-entry seed. -/
theorem riverLoop_eq_spec (seed : List ℚ) (hs : seed.length = 7) (prev : ℚ)
    (rows : List (Date × ℚ)) :
    riverLoop seed prev rows = riverSpecAux seed prev [] rows :=
  riverLoop_eq_specAux rows seed hs prev [] seed
    (by rw [List.nil_append, ← hs, List.take_length])

/-- Witness for C3 amended: the two recursions agree on a concrete
two-day run, via `riverLoop_eq_spec`. -/
theorem riverLoop_eq_spec_witness :
    (List.replicate 7 (1 : ℚ)).length = 7
    ∧ riverLoop (List.replicate 7 1) 2 [(0, 3), (1, 4)]
        = riverSpecAux (List.replicate 7 1) 2 [] [(0, 3), (1, 4)] :=
  ⟨rfl, riverLoop_eq_spec (List.replicate 7 1) rfl 2 [(0, 3), (1, 4)]⟩

/-- A quiet heuristic step (no rain, empty rolling sum) never moves the
level further from the baseline: it keeps a nonzero level unchanged and
pulls a zero level to 209.7, closer to 349.5 than 0 is. -/
theorem riverStep_quiet (prev : ℚ) :
    |riverStep prev 0 0 - BASELINE| ≤ |prev - BASELINE| := by
  by_cases h : prev = 0
  · subst h
    rw [riverStep_zero, show BASELINE = 699/2 from rfl,
      abs_of_nonpos (by norm_num : (2097/10 : ℚ) - 699/2 ≤ 0),
      abs_of_nonpos (by norm_num : (0 : ℚ) - 699/2 ≤ 0)]
    norm_num
  · have hstep : riverStep prev 0 0 = prev := by
      simp only [riverStep, if_pos h]
      ring
    rw [hstep]

/-- Once the two newest buffer entries are zero and the remaining forecast
is all zero, successive levels never move away from the baseline. -/
theorem riverLoop_quiet_chain :
    ∀ (rows : List (Date × ℚ)), (∀ r ∈ rows, r.2 = 0) →
      ∀ (t : List ℚ) (prev : ℚ),
      List.Chain' (fun a b => |b - BASELINE| ≤ |a - BASELINE|)
        (prev :: (riverLoop (0 :: 0 :: t) prev rows).map Prod.snd) := by
  intro rows
  induction rows with
  | nil => intro _ t prev; simp [riverLoop]
  | cons r rest ih =>
    intro hz t prev
    cases r with
    | mk d u =>
      have hu : u = 0 := hz (d, u) (List.mem_cons_self _ _)
      subst hu
      have hz2 : ∀ r ∈ rest, r.2 = 0 := fun r hr => hz r (List.mem_cons_of_mem _ hr)
      have hroll : ((pushLag (0 :: 0 :: t) 0).take 3).sum = 0 := by
        cases t <;> simp [pushLag, List.dropLast]
      cases t with
      | nil =>
        have hstep := ih hz2 []
          (riverStep prev ((pushLag (0 :: 0 :: ([] : List ℚ)) 0).take 3).sum 0)
        refine List.chain'_cons.mpr ⟨?_, hstep⟩
        rw [show ((pushLag (0 :: 0 :: ([] : List ℚ)) 0).take 3).sum = 0 from hroll]
        exact riverStep_quiet prev
      | cons c t2 =>
        have hstep := ih hz2 (0 :: (c :: t2).dropLast)
          (riverStep prev ((pushLag (0 :: 0 :: c :: t2) 0).take 3).sum 0)
        refine List.chain'_cons.mpr ⟨?_, ?_⟩
        · rw [show ((pushLag (0 :: 0 :: c :: t2) 0).take 3).sum = 0 from hroll]
          exact riverStep_quiet prev
        · exact hstep

/-- C9: a heuristic run seeded with last level 349.5 (history `c9hist u`
with arbitrary last upstream rain `u`) on a constant all-zero upstream
forecast of 5 days emits 5 levels whose absolute deviations from 349.5
are non-increasing from the second output on: the adjacent deviation
inequalities hold for all indices i ≥ 2 (0-based `output[i]` vs
`output[i-1]` for i = 2, 3, 4). -/
theorem river_heuristic_contraction (u : ℚ) :
    (c9out u).length = 5
    ∧ List.Chain' (fun a b => |b - BASELINE| ≤ |a - BASELINE|)
        ((c9out u).drop 1) := by
  constructor
  · rfl
  · exact riverLoop_quiet_chain [(3, 0), (4, 0), (5, 0)] (by decide)
      [u, u, u, u, u] _

end FloodDetector
